import Mathlib

/-!
Shallow embedding of the WhatsApp auto-reply agent (`src/p.py`, class
`WhatsAppAgent`).  The mutable instance attributes become an explicit
`AgentState` record; Python `set`s are modelled as duplicate-free insertion
lists, the `chat_cooldowns` dict as an association list; `time.time()` values
are passed in explicitly as natural numbers.  The two opaque collaborators
are parameters: the language model call is an `Option String` (`none` models
the call raising an exception), and the `md5(...).hexdigest()` hash is an
abstract `String → String`.  All string operations are implemented over the
code-point list `String.data` so they mirror Python code-point semantics and
evaluate on concrete inputs.
-/

namespace WhatsAppAgent

set_option maxRecDepth 8000

set_option linter.unusedVariables false

/-- Python `s[:n]` on a string: first `n` code points. -/
def strTake (s : String) (n : Nat) : String := String.mk (s.data.take n)

/-- Python `s.lower()` (code-point-wise; exact on the ASCII names and
messages this program handles). -/
def strToLower (s : String) : String := String.mk (s.data.map Char.toLower)

/-- Python `s.strip()`: drop leading and trailing whitespace. -/
def strTrim (s : String) : String :=
  String.mk (((s.data.dropWhile Char.isWhitespace).reverse.dropWhile Char.isWhitespace).reverse)

/-- Python `s.startswith(p)`. -/
def strStartsWith (s p : String) : Bool := p.data.isPrefixOf s.data

/-- Python `len(s)`: number of code points. -/
def strLen (s : String) : Nat := s.data.length

/-- Python `sub in s`: substring containment on code points. -/
def containsStr (s sub : String) : Bool :=
  s.data.tails.any (fun t => sub.data.isPrefixOf t)

/-- Python `set.add`: insert if absent, keeping insertion order. -/
def setAdd (l : List String) (a : String) : List String :=
  if l.contains a then l else l ++ [a]

/-- Python `dict[k] = v` on an association list. -/
def dictSet (d : List (String × Nat)) (k : String) (v : Nat) : List (String × Nat) :=
  match d with
  | [] => [(k, v)]
  | (k', v') :: rest => if k' = k then (k, v) :: rest else (k', v') :: dictSet rest k v

/-- Python `d.get(k)` / `k in d` lookup on an association list. -/
def dictGet (d : List (String × Nat)) (k : String) : Option Nat :=
  match d with
  | [] => none
  | (k', v) :: rest => if k' = k then some v else dictGet rest k

/-- `self.MESSAGE_COOLDOWN = 15` (p.py line 104). -/
def MESSAGE_COOLDOWN : Nat := 15

/-- `self.SCAN_COOLDOWN = 5.0` (p.py line 106). -/
def SCAN_COOLDOWN : Nat := 5

/-- The mutable state of `WhatsAppAgent` relevant to the monitoring loop
(p.py lines 63-77): `processed_messages`, `processed_chats`,
`chat_cooldowns`, `known_contacts`, `busy_message_sent`,
`last_scan_time`, `scan_count`. -/
structure AgentState where
  processed_messages : List String
  processed_chats : List String
  chat_cooldowns : List (String × Nat)
  known_contacts : List String
  busy_message_sent : List String
  last_scan_time : Nat
  scan_count : Nat
deriving DecidableEq

/-- `is_new_contact` (p.py lines 470-483). -/
def is_new_contact (s : AgentState) (chat_name : String) : Bool :=
  let clean_chat_name := strToLower (strTrim chat_name)
  if s.known_contacts.contains clean_chat_name then false
  else if strStartsWith clean_chat_name "chat_" || strStartsWith clean_chat_name "unknown_" then
    false
  else true

/-- `mark_contact_as_known` (p.py lines 485-488). -/
def mark_contact_as_known (s : AgentState) (chat_name : String) : AgentState :=
  { s with known_contacts := setAdd s.known_contacts (strToLower (strTrim chat_name)) }

/-- `has_busy_message_been_sent` (p.py lines 490-493). -/
def has_busy_message_been_sent (s : AgentState) (chat_name : String) : Bool :=
  s.busy_message_sent.contains (strToLower (strTrim chat_name))

/-- `mark_busy_message_sent` (p.py lines 495-498). -/
def mark_busy_message_sent (s : AgentState) (chat_name : String) : AgentState :=
  { s with busy_message_sent := setAdd s.busy_message_sent (strToLower (strTrim chat_name)) }

/-- The literal first-contact reply of `generate_ai_response`. -/
def BUSY_REPLY : String := "Hi, Akash is busy."

/-- The fixed fallback reply of `generate_ai_response`'s except branch. -/
def FALLBACK_REPLY : String := "I'm here to help! What do you need? 😊"

/-- `generate_ai_response` (p.py lines 500-557).  `model` is the outcome of
`self.client.chat.completions.create(...)`: `some content` is a successful
call, `none` models the call raising (the only statement in the `try` body
that can raise; everything before it is pure).  On `none` control moves to
the `except` branch with the mutations made so far retained. -/
def generate_ai_response (model : Option String) (message chat_name : String)
    (s : AgentState) : String × AgentState :=
  let is_new := is_new_contact s chat_name
  let busy_sent := has_busy_message_been_sent s chat_name
  if is_new && !busy_sent then
    let s := mark_busy_message_sent s chat_name
    let s := mark_contact_as_known s chat_name
    (BUSY_REPLY, s)
  else
    let s := mark_contact_as_known s chat_name
    match model with
    | some content => (strTrim content, s)
    | none =>
      if is_new_contact s chat_name && !(has_busy_message_been_sent s chat_name) then
        let s := mark_busy_message_sent s chat_name
        let s := mark_contact_as_known s chat_name
        (BUSY_REPLY, s)
      else
        let s := mark_contact_as_known s chat_name
        (FALLBACK_REPLY, s)

/-- `ai_indicators` of `get_latest_incoming_message` (p.py lines 445-450). -/
def AI_INDICATORS : List String :=
  ["Hey! Akash is busy right now, but I'm his AI assistant",
   "I'm Akash's AI assistant",
   "🤖",
   "AI assistant"]

/-- `get_latest_incoming_message` (p.py lines 418-468), over the raw texts of
the incoming-message nodes found by the first working selector: strip each,
keep the nonempty ones, take the last as latest, then filter out the agent's
own messages. -/
def get_latest_incoming_message (texts : List String) : Option String :=
  let incoming_messages := (texts.map strTrim).filter (fun t => 0 < strLen t)
  match incoming_messages.getLast? with
  | none => none
  | some latest_message =>
    if AI_INDICATORS.any (fun ind => containsStr latest_message ind) then none
    else if 100 < strLen latest_message
        && containsStr (strToLower latest_message) "assistant" then none
    else some latest_message

/-- `ai_signatures` of `is_message_from_user` (p.py lines 659-665). -/
def AI_SIGNATURES : List String :=
  ["Hey! Akash is busy right now, but I'm his AI assistant",
   "I'm Akash's AI assistant",
   "Hi! Akash is busy right now - I'm his AI assistant",
   "I'm here to help! What do you need?",
   "🤖"]

/-- `is_message_from_user` (p.py lines 657-676; the later of the two
identical definitions is the one bound on the class). -/
def is_message_from_user (message_text : String) : Bool :=
  if AI_SIGNATURES.any (fun signature => containsStr message_text signature) then false
  else if 120 < strLen message_text then false
  else true

/-- `create_message_id` (p.py lines 623-627).  `h` abstracts
`md5(...).hexdigest()` (a fixed deterministic function); `now` is
`int(time.time())`. -/
def create_message_id (h : String → String) (now : Nat) (message chat_name : String) : String :=
  let timestamp_group := now / 60
  strTake (h (chat_name ++ "::" ++ strTake message 50 ++ "::" ++ toString timestamp_group)) 12

/-- One chat-list row as the scanner observes it: displayed flag, rendered
height, on-screen location, whether an unread indicator matched, and the
name `get_chat_name_from_element` resolves for it. -/
structure ChatRow where
  displayed : Bool
  height : Nat
  x : Nat
  y : Nat
  has_unread : Bool
  name : String
deriving DecidableEq

/-- The `for i, chat in enumerate(all_chats[:20])` loop body of
`scan_for_unread_chats` (p.py lines 325-365): skip hidden or collapsed rows,
skip rows whose `chat_id` is already in `processed_chats`, skip rows without
an unread indicator, skip rows whose name is inside its cooldown window;
otherwise select the row, record its `chat_id`, and stop (`break`). -/
def scanRows (now : Nat) (s : AgentState) :
    List ChatRow → AgentState × List (ChatRow × String × String)
  | [] => (s, [])
  | row :: rest =>
    if !row.displayed || row.height ≤ 10 then scanRows now s rest
    else
      let chat_id := toString row.x ++ "_" ++ toString row.y
      if s.processed_chats.contains chat_id then scanRows now s rest
      else if !row.has_unread then scanRows now s rest
      else
        let chat_name := row.name
        match dictGet s.chat_cooldowns chat_name with
        | some ts =>
          if now - ts < MESSAGE_COOLDOWN then scanRows now s rest
          else ({ s with processed_chats := setAdd s.processed_chats chat_id },
                [(row, chat_name, chat_id)])
        | none => ({ s with processed_chats := setAdd s.processed_chats chat_id },
                   [(row, chat_name, chat_id)])

/-- `scan_for_unread_chats` (p.py lines 292-379): return `[]` while within
`SCAN_COOLDOWN` of the last scan, else stamp the time, bump `scan_count`,
return `[]` if no chat rows were found, else run the row loop on the first
20 rows, and afterwards clear `processed_chats` on every 10th scan. -/
def scan_for_unread_chats (now : Nat) (rows : List ChatRow) (s : AgentState) :
    AgentState × List (ChatRow × String × String) :=
  if now - s.last_scan_time < SCAN_COOLDOWN then (s, [])
  else
    let s := { s with last_scan_time := now, scan_count := s.scan_count + 1 }
    if rows.isEmpty then (s, [])
    else
      let r := scanRows now s (rows.take 20)
      let s := if r.1.scan_count % 10 == 0 then { r.1 with processed_chats := [] } else r.1
      (s, r.2)

/-- The per-tick environment of the chat-processing block of
`main_monitoring_loop` (p.py lines 699-761): whether `click_chat_element`
succeeded, the header name `get_current_chat_name` returns, the incoming
message texts visible in the opened chat, the model-call outcome inside
`generate_ai_response`, whether `send_message` returns True, and the tick's
`time.time()` value. -/
structure TickEnv where
  click_ok : Bool
  actual_chat_name : String
  incoming_texts : List String
  model : Option String
  send_ok : Bool
  now : Nat
deriving DecidableEq

/-- The processing of one selected unread chat in `main_monitoring_loop`
(p.py lines 699-761).  Returns the new state together with `some reply` when
`send_message(reply)` was attempted and `none` when the tick left the chat
without attempting a send.  On send success the message id is recorded in
`processed_messages` and the cooldown stamped; on send failure (and on every
earlier exit) neither happens. -/
def process_chat (h : String → String) (env : TickEnv) (s : AgentState) :
    AgentState × Option String :=
  if !env.click_ok then (s, none)
  else
    let actual_chat_name := env.actual_chat_name
    match get_latest_incoming_message env.incoming_texts with
    | none => (s, none)
    | some latest_message =>
      if strLen (strTrim latest_message) = 0 then (s, none)
      else if !(is_message_from_user latest_message) then (s, none)
      else
        let message_id := create_message_id h env.now latest_message actual_chat_name
        if s.processed_messages.contains message_id then (s, none)
        else
          let r := generate_ai_response env.model latest_message actual_chat_name s
          if env.send_ok then
            ({ r.2 with
                processed_messages := setAdd r.2.processed_messages message_id,
                chat_cooldowns := dictSet r.2.chat_cooldowns actual_chat_name env.now },
             some r.1)
          else (r.2, some r.1)

/-- The `processed_messages` housekeeping of `main_monitoring_loop`
(p.py lines 774-778): if more than 100 ids are stored, discard the first 50
of `list(self.processed_messages)`. -/
def cleanup_processed (l : List String) : List String :=
  if 100 < l.length then (l.take 50).foldl (fun acc old_msg => acc.erase old_msg) l else l

/-- The `chat_cooldowns` housekeeping of `main_monitoring_loop`
(p.py lines 780-787): delete entries older than `MESSAGE_COOLDOWN * 2`. -/
def cleanup_cooldowns (now : Nat) (d : List (String × Nat)) : List (String × Nat) :=
  d.filter (fun kv => !(MESSAGE_COOLDOWN * 2 < now - kv.2))

/-- The element just added by `setAdd` is a member of the result. -/
theorem mem_setAdd_self (l : List String) (a : String) : a ∈ setAdd l a := by
  unfold setAdd
  split
  next hc => simpa using hc
  next => exact List.mem_append_right _ (by simp)

/-- `setAdd` keeps every previous member: the sets only grow. -/
theorem subset_setAdd (l : List String) (a : String) : l ⊆ setAdd l a := by
  unfold setAdd
  split
  next => exact fun x hx => hx
  next => exact fun x hx => List.mem_append_left _ hx

/-- Right after `mark_contact_as_known`, the same chat name is no longer a
new contact: its normalized form is in `known_contacts`. -/
theorem is_new_contact_after_known (s : AgentState) (chat_name : String) :
    is_new_contact (mark_contact_as_known s chat_name) chat_name = false := by
  have h := mem_setAdd_self s.known_contacts (strToLower (strTrim chat_name))
  simp [is_new_contact, mark_contact_as_known, h]

/-- Branch equation: when the new-contact condition holds,
`generate_ai_response` takes the busy path. -/
theorem generate_eq_busy (model : Option String) (message chat_name : String) (s : AgentState)
    (h : (is_new_contact s chat_name && !has_busy_message_been_sent s chat_name) = true) :
    generate_ai_response model message chat_name s =
      ("Hi, Akash is busy.", mark_contact_as_known (mark_busy_message_sent s chat_name) chat_name) := by
  simp only [generate_ai_response]
  rw [h]
  rfl

/-- Branch equation: when the new-contact condition fails and the model call
succeeds, `generate_ai_response` returns the trimmed model text. -/
theorem generate_eq_model (content message chat_name : String) (s : AgentState)
    (h : (is_new_contact s chat_name && !has_busy_message_been_sent s chat_name) = false) :
    generate_ai_response (some content) message chat_name s =
      (strTrim content, mark_contact_as_known s chat_name) := by
  simp only [generate_ai_response]
  rw [h]
  rfl

/-- Branch equation: when the new-contact condition fails and the model call
raises, the except branch returns the fixed fallback (its own busy re-check
is dead: the contact was marked known before the model call). -/
theorem generate_eq_fallback (message chat_name : String) (s : AgentState)
    (h : (is_new_contact s chat_name && !has_busy_message_been_sent s chat_name) = false) :
    generate_ai_response none message chat_name s =
      (FALLBACK_REPLY,
       mark_contact_as_known (mark_contact_as_known s chat_name) chat_name) := by
  simp only [generate_ai_response]
  rw [h, is_new_contact_after_known]
  rfl

/-- `generate_ai_response` leaves `processed_messages` and `chat_cooldowns`
untouched and only ever grows `known_contacts` and `busy_message_sent`. -/
theorem generate_ai_response_fields (model : Option String) (message chat_name : String)
    (s : AgentState) :
    (generate_ai_response model message chat_name s).2.processed_messages =
        s.processed_messages ∧
    (generate_ai_response model message chat_name s).2.chat_cooldowns = s.chat_cooldowns ∧
    s.known_contacts ⊆ (generate_ai_response model message chat_name s).2.known_contacts ∧
    s.busy_message_sent ⊆ (generate_ai_response model message chat_name s).2.busy_message_sent := by
  by_cases hc :
      (is_new_contact s chat_name && !has_busy_message_been_sent s chat_name) = true
  · rw [generate_eq_busy model message chat_name s hc]
    exact ⟨rfl, rfl, subset_setAdd _ _, subset_setAdd _ _⟩
  · have hc' :
        (is_new_contact s chat_name && !has_busy_message_been_sent s chat_name) = false := by
      simpa using hc
    cases model with
    | some content =>
      rw [generate_eq_model content message chat_name s hc']
      exact ⟨rfl, rfl, subset_setAdd _ _, fun x hx => hx⟩
    | none =>
      rw [generate_eq_fallback message chat_name s hc']
      refine ⟨rfl, rfl, ?_, fun x hx => hx⟩
      exact fun x hx => subset_setAdd _ _ (subset_setAdd _ _ hx)

/-- `process_chat` only ever grows `known_contacts` and `busy_message_sent`. -/
theorem process_chat_grows_contacts (h : String → String) (env : TickEnv) (s : AgentState) :
    s.known_contacts ⊆ (process_chat h env s).1.known_contacts ∧
    s.busy_message_sent ⊆ (process_chat h env s).1.busy_message_sent := by
  simp only [process_chat]
  split
  next => exact ⟨fun x hx => hx, fun x hx => hx⟩
  next =>
    split
    next => exact ⟨fun x hx => hx, fun x hx => hx⟩
    next latest heq =>
      split
      next => exact ⟨fun x hx => hx, fun x hx => hx⟩
      next =>
        split
        next => exact ⟨fun x hx => hx, fun x hx => hx⟩
        next =>
          split
          next => exact ⟨fun x hx => hx, fun x hx => hx⟩
          next =>
            have hf := generate_ai_response_fields env.model latest env.actual_chat_name s
            split
            next => exact ⟨hf.2.2.1, hf.2.2.2⟩
            next => exact ⟨hf.2.2.1, hf.2.2.2⟩

/-- The scanner row loop touches only `processed_chats`. -/
theorem scanRows_fields (now : Nat) (s : AgentState) (rows : List ChatRow) :
    (scanRows now s rows).1.known_contacts = s.known_contacts ∧
    (scanRows now s rows).1.busy_message_sent = s.busy_message_sent ∧
    (scanRows now s rows).1.chat_cooldowns = s.chat_cooldowns ∧
    (scanRows now s rows).1.processed_messages = s.processed_messages ∧
    (scanRows now s rows).1.scan_count = s.scan_count := by
  induction rows with
  | nil => exact ⟨rfl, rfl, rfl, rfl, rfl⟩
  | cons row rest ih =>
    simp only [scanRows]
    split
    next => exact ih
    next =>
      split
      next => exact ih
      next =>
        split
        next => exact ih
        next =>
          split
          next ts hts =>
            split
            next => exact ih
            next => exact ⟨rfl, rfl, rfl, rfl, rfl⟩
          next => exact ⟨rfl, rfl, rfl, rfl, rfl⟩

/-- `scan_for_unread_chats` touches only `processed_chats`,
`last_scan_time` and `scan_count`. -/
theorem scan_fields (now : Nat) (rows : List ChatRow) (s : AgentState) :
    (scan_for_unread_chats now rows s).1.known_contacts = s.known_contacts ∧
    (scan_for_unread_chats now rows s).1.busy_message_sent = s.busy_message_sent ∧
    (scan_for_unread_chats now rows s).1.chat_cooldowns = s.chat_cooldowns ∧
    (scan_for_unread_chats now rows s).1.processed_messages = s.processed_messages := by
  simp only [scan_for_unread_chats]
  split
  next => exact ⟨rfl, rfl, rfl, rfl⟩
  next =>
    split
    next => exact ⟨rfl, rfl, rfl, rfl⟩
    next =>
      have hr := scanRows_fields now
        { s with last_scan_time := now, scan_count := s.scan_count + 1 } (rows.take 20)
      split
      next => exact ⟨hr.1, hr.2.1, hr.2.2.1, hr.2.2.2.1⟩
      next => exact ⟨hr.1, hr.2.1, hr.2.2.1, hr.2.2.2.1⟩

/-- A synthetic placeholder name is never classified as a new contact,
whatever the state. -/
theorem is_new_contact_synthetic (s : AgentState) (chat_name : String)
    (hsyn : strStartsWith (strToLower (strTrim chat_name)) "chat_" = true ∨
            strStartsWith (strToLower (strTrim chat_name)) "unknown_" = true) :
    is_new_contact s chat_name = false := by
  rcases hsyn with h | h <;> simp [is_new_contact, h]

/-- Claim C1: for a chat name whose normalized (trimmed, lower-cased) form is
not in `known_contacts`, not in `busy_message_sent`, and not a synthetic
placeholder (no `chat_`/`unknown_` prefix), `generate_ai_response` returns
exactly the literal "Hi, Akash is busy." for every message text and every
model outcome, and afterwards the normalized name is in both
`known_contacts` and `busy_message_sent`. -/
theorem first_contact_busy_reply (model : Option String) (message chat_name : String)
    (s : AgentState)
    (hknown : strToLower (strTrim chat_name) ∉ s.known_contacts)
    (hbusy : strToLower (strTrim chat_name) ∉ s.busy_message_sent)
    (hsyn1 : strStartsWith (strToLower (strTrim chat_name)) "chat_" = false)
    (hsyn2 : strStartsWith (strToLower (strTrim chat_name)) "unknown_" = false) :
    (generate_ai_response model message chat_name s).1 = "Hi, Akash is busy." ∧
    strToLower (strTrim chat_name) ∈
      (generate_ai_response model message chat_name s).2.known_contacts ∧
    strToLower (strTrim chat_name) ∈
      (generate_ai_response model message chat_name s).2.busy_message_sent := by
  have hnew : is_new_contact s chat_name = true := by
    unfold is_new_contact
    simp [hknown, hsyn1, hsyn2]
  have hb : has_busy_message_been_sent s chat_name = false := by
    unfold has_busy_message_been_sent
    simpa using hbusy
  rw [generate_eq_busy model message chat_name s (by rw [hnew, hb]; rfl)]
  exact ⟨rfl, mem_setAdd_self _ _, mem_setAdd_self _ _⟩

/-- Claim C1 witness: a fresh state and the contact "Maria". -/
theorem first_contact_busy_reply_witness :
    (generate_ai_response (some "yo") "hi" "Maria" ⟨[], [], [], [], [], 0, 0⟩).1 =
        "Hi, Akash is busy." ∧
    strToLower (strTrim "Maria") ∈
      (generate_ai_response (some "yo") "hi" "Maria" ⟨[], [], [], [], [], 0, 0⟩).2.known_contacts ∧
    strToLower (strTrim "Maria") ∈
      (generate_ai_response (some "yo") "hi" "Maria"
        ⟨[], [], [], [], [], 0, 0⟩).2.busy_message_sent :=
  first_contact_busy_reply (some "yo") "hi" "Maria" ⟨[], [], [], [], [], 0, 0⟩
    (by decide) (by decide) (by decide) (by decide)

/-- Claim C9: a chat whose normalized name starts with `chat_` or `unknown_`
is never classified as a new contact, so `generate_ai_response` never takes
the busy-reply path for it: the reply is the model's text (trimmed) on model
success, the fixed fallback on model failure, and `busy_message_sent` is
unchanged. -/
theorem synthetic_name_no_busy_path (model : Option String) (message chat_name : String)
    (s : AgentState)
    (hsyn : strStartsWith (strToLower (strTrim chat_name)) "chat_" = true ∨
            strStartsWith (strToLower (strTrim chat_name)) "unknown_" = true) :
    is_new_contact s chat_name = false ∧
    (generate_ai_response model message chat_name s).1 =
      (match model with
       | some content => strTrim content
       | none => FALLBACK_REPLY) ∧
    (generate_ai_response model message chat_name s).2.busy_message_sent =
      s.busy_message_sent := by
  have hnew := is_new_contact_synthetic s chat_name hsyn
  have hc : (is_new_contact s chat_name && !has_busy_message_been_sent s chat_name) = false := by
    rw [hnew]
    rfl
  refine ⟨hnew, ?_⟩
  cases model with
  | some content =>
    rw [generate_eq_model content message chat_name s hc]
    exact ⟨rfl, rfl⟩
  | none =>
    rw [generate_eq_fallback message chat_name s hc]
    exact ⟨rfl, rfl⟩

/-- Claim C9 witness: the placeholder chat "Chat_120_340" on a fresh state. -/
theorem synthetic_name_no_busy_path_witness :
    is_new_contact ⟨[], [], [], [], [], 0, 0⟩ "Chat_120_340" = false ∧
    (generate_ai_response (some "hey") "hi" "Chat_120_340" ⟨[], [], [], [], [], 0, 0⟩).1 =
      (match some "hey" with
       | some content => strTrim content
       | none => FALLBACK_REPLY) ∧
    (generate_ai_response (some "hey") "hi" "Chat_120_340"
        ⟨[], [], [], [], [], 0, 0⟩).2.busy_message_sent =
      AgentState.busy_message_sent ⟨[], [], [], [], [], 0, 0⟩ :=
  synthetic_name_no_busy_path (some "hey") "hi" "Chat_120_340" ⟨[], [], [], [], [], 0, 0⟩
    (Or.inl (by decide))

/-- Claim C2: once a contact's normalized name is in `busy_message_sent`,
`generate_ai_response` never takes the busy-reply path again: the reply is
the trimmed model text on model success and the fixed fallback
"I'm here to help! What do you need? 😊" on model failure; the contact's
normalized name stays in `busy_message_sent`, and `generate_ai_response`,
`process_chat` and `scan_for_unread_chats` only ever grow `known_contacts`
and `busy_message_sent` (entries are never removed). -/
theorem busy_sent_never_busy_again (model : Option String) (message chat_name : String)
    (s : AgentState)
    (hsent : strToLower (strTrim chat_name) ∈ s.busy_message_sent) :
    (∀ content, model = some content →
        (generate_ai_response model message chat_name s).1 = strTrim content) ∧
    (model = none → (generate_ai_response model message chat_name s).1 = FALLBACK_REPLY) ∧
    s.known_contacts ⊆ (generate_ai_response model message chat_name s).2.known_contacts ∧
    s.busy_message_sent ⊆ (generate_ai_response model message chat_name s).2.busy_message_sent ∧
    strToLower (strTrim chat_name) ∈
      (generate_ai_response model message chat_name s).2.busy_message_sent ∧
    (∀ (h : String → String) (env : TickEnv) (t : AgentState),
        t.known_contacts ⊆ (process_chat h env t).1.known_contacts ∧
        t.busy_message_sent ⊆ (process_chat h env t).1.busy_message_sent) ∧
    (∀ (now : Nat) (rows : List ChatRow) (t : AgentState),
        (scan_for_unread_chats now rows t).1.known_contacts = t.known_contacts ∧
        (scan_for_unread_chats now rows t).1.busy_message_sent = t.busy_message_sent) := by
  have hb : has_busy_message_been_sent s chat_name = true := by
    unfold has_busy_message_been_sent
    simpa using hsent
  have hc : (is_new_contact s chat_name && !has_busy_message_been_sent s chat_name) = false := by
    rw [hb]
    simp
  have hf := generate_ai_response_fields model message chat_name s
  refine ⟨?_, ?_, hf.2.2.1, hf.2.2.2, hf.2.2.2 hsent, process_chat_grows_contacts, ?_⟩
  · intro content hm
    subst hm
    rw [generate_eq_model content message chat_name s hc]
  · intro hm
    subst hm
    rw [generate_eq_fallback message chat_name s hc]
  · intro now rows t
    have hs := scan_fields now rows t
    exact ⟨hs.1, hs.2.1⟩

/-- Claim C2 witness: the contact "Maria" already busy-sent with a
successful model call. -/
theorem busy_sent_never_busy_again_witness :
    (∀ content, (some "yo" : Option String) = some content →
        (generate_ai_response (some "yo") "hi" "Maria"
            ⟨[], [], [], ["maria"], ["maria"], 0, 0⟩).1 = strTrim content) ∧
    ((some "yo" : Option String) = none →
        (generate_ai_response (some "yo") "hi" "Maria"
            ⟨[], [], [], ["maria"], ["maria"], 0, 0⟩).1 = FALLBACK_REPLY) ∧
    AgentState.known_contacts ⟨[], [], [], ["maria"], ["maria"], 0, 0⟩ ⊆
      (generate_ai_response (some "yo") "hi" "Maria"
          ⟨[], [], [], ["maria"], ["maria"], 0, 0⟩).2.known_contacts ∧
    AgentState.busy_message_sent ⟨[], [], [], ["maria"], ["maria"], 0, 0⟩ ⊆
      (generate_ai_response (some "yo") "hi" "Maria"
          ⟨[], [], [], ["maria"], ["maria"], 0, 0⟩).2.busy_message_sent ∧
    strToLower (strTrim "Maria") ∈
      (generate_ai_response (some "yo") "hi" "Maria"
          ⟨[], [], [], ["maria"], ["maria"], 0, 0⟩).2.busy_message_sent ∧
    (∀ (h : String → String) (env : TickEnv) (t : AgentState),
        t.known_contacts ⊆ (process_chat h env t).1.known_contacts ∧
        t.busy_message_sent ⊆ (process_chat h env t).1.busy_message_sent) ∧
    (∀ (now : Nat) (rows : List ChatRow) (t : AgentState),
        (scan_for_unread_chats now rows t).1.known_contacts = t.known_contacts ∧
        (scan_for_unread_chats now rows t).1.busy_message_sent = t.busy_message_sent) :=
  busy_sent_never_busy_again (some "yo") "hi" "Maria"
    ⟨[], [], [], ["maria"], ["maria"], 0, 0⟩ (by decide)

/-- Successful-send tick equation: when every gate passes (click succeeded,
a user message was surfaced, its id is fresh, the send succeeded),
`process_chat` records the message id in `processed_messages` and stamps the
chat's cooldown. -/
theorem process_chat_eq_sent (hsh : String → String) (env : TickEnv) (s : AgentState)
    (m : String)
    (hclick : env.click_ok = true)
    (hm : get_latest_incoming_message env.incoming_texts = some m)
    (htrim : ¬(strLen (strTrim m) = 0))
    (huser : is_message_from_user m = true)
    (hfresh : s.processed_messages.contains
        (create_message_id hsh env.now m env.actual_chat_name) = false)
    (hsend : env.send_ok = true) :
    process_chat hsh env s =
      ({ (generate_ai_response env.model m env.actual_chat_name s).2 with
          processed_messages :=
            setAdd (generate_ai_response env.model m env.actual_chat_name s).2.processed_messages
              (create_message_id hsh env.now m env.actual_chat_name),
          chat_cooldowns :=
            dictSet (generate_ai_response env.model m env.actual_chat_name s).2.chat_cooldowns
              env.actual_chat_name env.now },
       some (generate_ai_response env.model m env.actual_chat_name s).1) := by
  simp only [process_chat, hclick, hm, Bool.not_true, Bool.false_eq_true, if_false]
  rw [if_neg htrim]
  simp only [huser, Bool.not_true, Bool.false_eq_true, if_false, hfresh, hsend, if_true]

/-- Claim C3: `create_message_id` depends only on the chat name, the first
50 characters of the message, and the minute bucket `now / 60`, so two such
triples that agree yield equal ids; consequently, after a tick that
successfully sent a reply for message `m1` in chat `env1.actual_chat_name`,
a second tick in the same minute bucket whose surfaced message shares the
50-character prefix and chat name computes the identical id, finds it in
`processed_messages`, and leaves the chat with no second send attempt. -/
theorem message_id_dedup (hsh : String → String) (s : AgentState)
    (env1 env2 : TickEnv) (m1 m2 : String)
    (hclick : env1.click_ok = true)
    (hm1 : get_latest_incoming_message env1.incoming_texts = some m1)
    (htrim : ¬(strLen (strTrim m1) = 0))
    (huser : is_message_from_user m1 = true)
    (hfresh : s.processed_messages.contains
        (create_message_id hsh env1.now m1 env1.actual_chat_name) = false)
    (hsend : env1.send_ok = true)
    (hname : env2.actual_chat_name = env1.actual_chat_name)
    (hm2 : get_latest_incoming_message env2.incoming_texts = some m2)
    (hpfx : strTake m2 50 = strTake m1 50)
    (hbkt : env2.now / 60 = env1.now / 60) :
    create_message_id hsh env2.now m2 env2.actual_chat_name =
      create_message_id hsh env1.now m1 env1.actual_chat_name ∧
    create_message_id hsh env2.now m2 env2.actual_chat_name ∈
      (process_chat hsh env1 s).1.processed_messages ∧
    (process_chat hsh env2 (process_chat hsh env1 s).1).2 = none := by
  have hdet : create_message_id hsh env2.now m2 env2.actual_chat_name =
      create_message_id hsh env1.now m1 env1.actual_chat_name := by
    unfold create_message_id
    rw [hname, hpfx, hbkt]
  have h1 := process_chat_eq_sent hsh env1 s m1 hclick hm1 htrim huser hfresh hsend
  have h1s : (process_chat hsh env1 s).1 =
      { (generate_ai_response env1.model m1 env1.actual_chat_name s).2 with
          processed_messages :=
            setAdd
              (generate_ai_response env1.model m1 env1.actual_chat_name s).2.processed_messages
              (create_message_id hsh env1.now m1 env1.actual_chat_name),
          chat_cooldowns :=
            dictSet
              (generate_ai_response env1.model m1 env1.actual_chat_name s).2.chat_cooldowns
              env1.actual_chat_name env1.now } := by
    rw [h1]
  have hmem : create_message_id hsh env2.now m2 env2.actual_chat_name ∈
      (process_chat hsh env1 s).1.processed_messages := by
    rw [hdet, h1s]
    exact mem_setAdd_self _ _
  refine ⟨hdet, hmem, ?_⟩
  obtain ⟨s1, hs1⟩ : ∃ t, (process_chat hsh env1 s).1 = t := ⟨_, rfl⟩
  rw [hs1] at hmem
  rw [hs1]
  by_cases hclick2 : env2.click_ok = true
  · simp only [process_chat, hclick2, Bool.not_true, Bool.false_eq_true, if_false, hm2]
    by_cases htrim2 : strLen (strTrim m2) = 0
    · rw [if_pos htrim2]
    · rw [if_neg htrim2]
      by_cases huser2 : is_message_from_user m2 = true
      · have hcont : s1.processed_messages.contains
            (create_message_id hsh env2.now m2 env2.actual_chat_name) = true := by
          simpa using hmem
        simp only [huser2, Bool.not_true, Bool.false_eq_true, if_false, hcont, if_true]
      · have huser2' : is_message_from_user m2 = false := by
          simpa using huser2
        simp only [huser2', Bool.not_false, if_true]
  · have hclick2' : env2.click_ok = false := by
      simpa using hclick2
    simp only [process_chat, hclick2', Bool.not_false, if_true]

/-- Claim C3 witness: "hello" from "Maria" sent successfully at second 30;
a second tick at second 59 (same minute bucket) with the same text is
suppressed. -/
theorem message_id_dedup_witness :
    create_message_id (fun x => x) 59 "hello" "Maria" =
      create_message_id (fun x => x) 30 "hello" "Maria" ∧
    create_message_id (fun x => x) 59 "hello" "Maria" ∈
      (process_chat (fun x => x) ⟨true, "Maria", ["hello"], some "yo", true, 30⟩
          ⟨[], [], [], [], [], 0, 0⟩).1.processed_messages ∧
    (process_chat (fun x => x) ⟨true, "Maria", ["hello"], some "sup", true, 59⟩
        (process_chat (fun x => x) ⟨true, "Maria", ["hello"], some "yo", true, 30⟩
            ⟨[], [], [], [], [], 0, 0⟩).1).2 = none :=
  message_id_dedup (fun x => x) ⟨[], [], [], [], [], 0, 0⟩
    ⟨true, "Maria", ["hello"], some "yo", true, 30⟩
    ⟨true, "Maria", ["hello"], some "sup", true, 59⟩
    "hello" "hello" rfl (by decide) (by decide) (by decide) (by decide) rfl rfl
    (by decide) rfl (by decide)

/-- Claim C4 counterexample: a first-contact message from "Maria" whose send
fails.  `generate_ai_response` runs before `send_message`, so even though the
send returns failure, the tick has already added "maria" to both
`known_contacts` and `busy_message_sent`: the claim that all four ledgers
are unchanged on send failure is false. -/
theorem send_failure_still_records_contact :
    TickEnv.send_ok ⟨true, "Maria", ["hello"], some "yo", false, 0⟩ = false ∧
    (process_chat (fun x => x) ⟨true, "Maria", ["hello"], some "yo", false, 0⟩
        ⟨[], [], [], [], [], 0, 0⟩).2 = some "Hi, Akash is busy." ∧
    (process_chat (fun x => x) ⟨true, "Maria", ["hello"], some "yo", false, 0⟩
        ⟨[], [], [], [], [], 0, 0⟩).1.known_contacts ≠
      AgentState.known_contacts ⟨[], [], [], [], [], 0, 0⟩ ∧
    (process_chat (fun x => x) ⟨true, "Maria", ["hello"], some "yo", false, 0⟩
        ⟨[], [], [], [], [], 0, 0⟩).1.busy_message_sent ≠
      AgentState.busy_message_sent ⟨[], [], [], [], [], 0, 0⟩ := by
  decide

/-- Claim C4 (amended): when `send_message` fails, `processed_messages` and
`chat_cooldowns` are unchanged — nothing is marked processed until send
succeeds, so the message may be reprocessed — but `known_contacts` and
`busy_message_sent` may already have been updated by
`generate_ai_response`, which runs before the send. -/
theorem send_failure_preserves_dedup (h : String → String) (env : TickEnv) (s : AgentState)
    (hfail : env.send_ok = false) :
    (process_chat h env s).1.processed_messages = s.processed_messages ∧
    (process_chat h env s).1.chat_cooldowns = s.chat_cooldowns := by
  simp only [process_chat]
  split
  next => exact ⟨rfl, rfl⟩
  next =>
    split
    next => exact ⟨rfl, rfl⟩
    next latest heq =>
      split
      next => exact ⟨rfl, rfl⟩
      next =>
        split
        next => exact ⟨rfl, rfl⟩
        next =>
          split
          next => exact ⟨rfl, rfl⟩
          next =>
            have hf := generate_ai_response_fields env.model latest env.actual_chat_name s
            split
            next hsend => exact absurd hsend (by simp [hfail])
            next => exact ⟨hf.1, hf.2.1⟩

/-- Claim C4 (amended) witness: the failing-send tick from the
counterexample leaves `processed_messages` and `chat_cooldowns` unchanged. -/
theorem send_failure_preserves_dedup_witness :
    (process_chat (fun x => x) ⟨true, "Maria", ["hello"], some "yo", false, 0⟩
        ⟨[], [], [], [], [], 0, 0⟩).1.processed_messages =
      AgentState.processed_messages ⟨[], [], [], [], [], 0, 0⟩ ∧
    (process_chat (fun x => x) ⟨true, "Maria", ["hello"], some "yo", false, 0⟩
        ⟨[], [], [], [], [], 0, 0⟩).1.chat_cooldowns =
      AgentState.chat_cooldowns ⟨[], [], [], [], [], 0, 0⟩ :=
  send_failure_preserves_dedup (fun x => x) ⟨true, "Maria", ["hello"], some "yo", false, 0⟩
    ⟨[], [], [], [], [], 0, 0⟩ rfl

/-- Claim C5 counterexample: a 121-character message of plain letters
contains no AI-signature substring and does not contain "assistant", yet
`is_message_from_user` rejects it — the length check is unconditional, so
the claimed "exceeds 120 characters AND contains assistant" clause is wrong
(and `get_latest_incoming_message` would have surfaced the message). -/
theorem long_message_rejected_without_assistant :
    is_message_from_user (String.mk (List.replicate 121 'a')) = false ∧
    (AI_SIGNATURES.any fun signature =>
        containsStr (String.mk (List.replicate 121 'a')) signature) = false ∧
    containsStr (strToLower (String.mk (List.replicate 121 'a'))) "assistant" = false ∧
    120 < strLen (String.mk (List.replicate 121 'a')) ∧
    get_latest_incoming_message [String.mk (List.replicate 121 'a')] =
      some (String.mk (List.replicate 121 'a')) := by
  decide

/-- Claim C5 (amended): `is_message_from_user` rejects a message iff it
contains one of the fixed AI-signature substrings or its length exceeds 120
characters; the "assistant" test is not part of this filter (it appears only
in `get_latest_incoming_message`, with a 100-character threshold). -/
theorem own_message_filter_amended (m : String) :
    is_message_from_user m = false ↔
      ((∃ signature ∈ AI_SIGNATURES, containsStr m signature = true) ∨ 120 < strLen m) := by
  unfold is_message_from_user
  split
  next hany =>
    constructor
    · intro _
      exact Or.inl (by simpa using hany)
    · intro _
      rfl
  next hany =>
    split
    next hlen =>
      constructor
      · intro _
        exact Or.inr hlen
      · intro _
        rfl
    next hlen =>
      constructor
      · intro hfalse
        exact absurd hfalse (by simp)
      · intro hor
        rcases hor with hsig | hl
        · exact absurd (by simpa using hsig) hany
        · exact absurd hl hlen

/-- Within the cooldown window, the row loop never selects a row whose
resolved name has a fresh cooldown entry. -/
theorem scanRows_skips_cooldown (now : Nat) (s : AgentState) (c : String) (ts : Nat)
    (hcd : dictGet s.chat_cooldowns c = some ts)
    (hwin : now - ts < MESSAGE_COOLDOWN) :
    ∀ rows, ∀ p ∈ (scanRows now s rows).2, p.2.1 ≠ c := by
  intro rows
  induction rows with
  | nil =>
    intro p hp
    simp [scanRows] at hp
  | cons row rest ih =>
    intro p hp
    simp only [scanRows] at hp
    split at hp
    next => exact ih p hp
    next =>
      split at hp
      next => exact ih p hp
      next =>
        split at hp
        next => exact ih p hp
        next =>
          split at hp
          next ts' hts' =>
            split at hp
            next => exact ih p hp
            next hnotwin =>
              rcases List.mem_singleton.mp hp with rfl
              intro hc
              have hc' : row.name = c := hc
              rw [hc', hcd] at hts'
              rw [Option.some_inj.mp hts'] at hwin
              exact hnotwin hwin
          next hnone =>
            rcases List.mem_singleton.mp hp with rfl
            intro hc
            have hc' : row.name = c := hc
            rw [hc', hcd] at hnone
            exact Option.noConfusion hnone

/-- Every row surfaced by `scan_for_unread_chats` has a name outside its
cooldown window. -/
theorem scan_skips_cooldown_all (now ts : Nat) (rows : List ChatRow) (s : AgentState)
    (c : String)
    (hcd : dictGet s.chat_cooldowns c = some ts)
    (hwin : now - ts < MESSAGE_COOLDOWN) :
    ∀ p ∈ (scan_for_unread_chats now rows s).2, p.2.1 ≠ c := by
  intro p hp
  simp only [scan_for_unread_chats] at hp
  split at hp
  next => simp at hp
  next =>
    split at hp
    next => simp at hp
    next =>
      exact scanRows_skips_cooldown now
        { s with last_scan_time := now, scan_count := s.scan_count + 1 }
        c ts hcd hwin (rows.take 20) p hp

/-- Claim C6: after `chat_cooldowns[c]` is stamped with time `ts`, any
`scan_for_unread_chats` call within `MESSAGE_COOLDOWN` (15) seconds of `ts`
never surfaces a row whose resolved chat name equals `c`, unread indicator
or not: `c` is not among the surfaced names. -/
theorem cooldown_chat_not_surfaced (now ts : Nat) (rows : List ChatRow) (s : AgentState)
    (c : String)
    (hcd : dictGet s.chat_cooldowns c = some ts)
    (hwin : now - ts < MESSAGE_COOLDOWN) :
    (((scan_for_unread_chats now rows s).2.map fun p => p.2.1).contains c) = false := by
  have h := scan_skips_cooldown_all now ts rows s c hcd hwin
  have hnot : c ∉ ((scan_for_unread_chats now rows s).2.map fun p => p.2.1) := by
    intro hc
    rcases List.mem_map.mp hc with ⟨p, hp, hpc⟩
    exact h p hp hpc
  simpa using hnot

/-- Claim C6 witness: "maria" was stamped at time 100; a scan at time 110
(inside the 15-second window) surfaces no row named "maria" even though an
unread row with that name is visible. -/
theorem cooldown_chat_not_surfaced_witness :
    (((scan_for_unread_chats 110 [⟨true, 50, 1, 2, true, "maria"⟩]
        ⟨[], [], [("maria", 100)], [], [], 0, 0⟩).2.map fun p => p.2.1).contains "maria")
      = false :=
  cooldown_chat_not_surfaced 110 100 [⟨true, 50, 1, 2, true, "maria"⟩]
    ⟨[], [], [("maria", 100)], [], [], 0, 0⟩ "maria" (by decide) (by decide)

/-- Claim C7 counterexample: the 10th cooldown-passing scan of a run, made
while no chat rows are found, returns early before the every-10th-scan
cleanup: `processed_chats` is not wiped, refuting "regardless of whether the
scan found any chat rows". -/
theorem tenth_scan_empty_rows_no_wipe :
    ¬((100 : Nat) - AgentState.last_scan_time ⟨[], ["1_2"], [], [], [], 0, 9⟩ <
        SCAN_COOLDOWN) ∧
    (scan_for_unread_chats 100 [] ⟨[], ["1_2"], [], [], [], 0, 9⟩).1.scan_count = 10 ∧
    (10 : Nat) % 10 = 0 ∧
    (scan_for_unread_chats 100 [] ⟨[], ["1_2"], [], [], [], 0, 9⟩).1.processed_chats ≠ [] := by
  decide

/-- Claim C7 (amended): a scan that passes the scan-rate cooldown, finds at
least one chat row, and brings `scan_count` to a multiple of 10, wipes
`processed_chats` entirely; a 10th scan that finds no chat rows returns
early and performs no wipe. -/
theorem tenth_scan_wipes_when_rows_found (now : Nat) (rows : List ChatRow) (s : AgentState)
    (hcool : ¬(now - s.last_scan_time < SCAN_COOLDOWN))
    (hrows : rows ≠ [])
    (hdecade : (s.scan_count + 1) % 10 = 0) :
    (scan_for_unread_chats now rows s).1.processed_chats = [] := by
  simp only [scan_for_unread_chats]
  rw [if_neg hcool]
  have hne : rows.isEmpty = false := by simpa using hrows
  simp only [hne, Bool.false_eq_true, if_false]
  have hsc := (scanRows_fields now
    { s with last_scan_time := now, scan_count := s.scan_count + 1 } (rows.take 20)).2.2.2.2
  have hcond : ((scanRows now
      { s with last_scan_time := now, scan_count := s.scan_count + 1 }
      (rows.take 20)).1.scan_count % 10 == 0) = true := by
    rw [hsc]
    simpa using hdecade
  simp only [hcond, if_true]

/-- Claim C7 (amended) witness: a 10th scan with one visible row wipes the
`processed_chats` cache. -/
theorem tenth_scan_wipes_when_rows_found_witness :
    (scan_for_unread_chats 100 [⟨true, 50, 1, 2, false, "bob"⟩]
        ⟨[], ["1_2"], [], [], [], 0, 9⟩).1.processed_chats = [] :=
  tenth_scan_wipes_when_rows_found 100 [⟨true, 50, 1, 2, false, "bob"⟩]
    ⟨[], ["1_2"], [], [], [], 0, 9⟩ (by decide) (by decide) (by decide)

/-- Discarding, in order, each of the first `k` listed elements from the
list itself removes exactly the first `k` elements. -/
theorem foldl_erase_take (l : List String) (k : Nat) :
    (l.take k).foldl (fun acc old_msg => acc.erase old_msg) l = l.drop k := by
  induction l generalizing k with
  | nil => simp
  | cons a t ih =>
    cases k with
    | zero => simp
    | succ k =>
      simp only [List.take_succ_cons, List.foldl_cons, List.drop_succ_cons]
      rw [List.erase_cons_head]
      exact ih k

/-- Claim C8: whenever `processed_messages` holds more than 100 entries at
the housekeeping step, the pass removes exactly the first 50 listed entries
(total, so it never raises), strictly shrinking the ledger back toward the
50-entry mark; since the loop adds at most one id per tick, the ledger holds
at most 101 entries there, leaving at most 51. -/
theorem processed_eviction (l : List String) (hlen : 100 < l.length) :
    (cleanup_processed l).length = l.length - 50 ∧
    (cleanup_processed l).length < l.length ∧
    (l.length ≤ 101 → (cleanup_processed l).length ≤ 51) := by
  unfold cleanup_processed
  rw [if_pos hlen, foldl_erase_take l 50, List.length_drop]
  refine ⟨rfl, ?_, ?_⟩
  · omega
  · omega

/-- Claim C8 witness: a ledger of 101 distinct ids shrinks to 51. -/
theorem processed_eviction_witness :
    (cleanup_processed ((List.range 101).map fun n =>
        String.mk [Char.ofNat (161 + n)])).length =
      ((List.range 101).map fun n => String.mk [Char.ofNat (161 + n)]).length - 50 ∧
    (cleanup_processed ((List.range 101).map fun n =>
        String.mk [Char.ofNat (161 + n)])).length <
      ((List.range 101).map fun n => String.mk [Char.ofNat (161 + n)]).length ∧
    (((List.range 101).map fun n => String.mk [Char.ofNat (161 + n)]).length ≤ 101 →
      (cleanup_processed ((List.range 101).map fun n =>
          String.mk [Char.ofNat (161 + n)])).length ≤ 51) :=
  processed_eviction ((List.range 101).map fun n => String.mk [Char.ofNat (161 + n)])
    (by decide)

/-- Claim C10: the agent's own canned busy reply "Hi, Akash is busy." is not
caught by the own-message filter: `is_message_from_user` accepts it (it
contains no AI-signature substring and is under 120 characters), and the
filter inside `get_latest_incoming_message` does not reject it either, so
when it is the latest visible message it is classified as a genuine incoming
user message. -/
theorem busy_reply_passes_own_filter :
    is_message_from_user "Hi, Akash is busy." = true ∧
    get_latest_incoming_message ["Hi, Akash is busy."] = some "Hi, Akash is busy." := by
  decide

end WhatsAppAgent
